import Mathlib

/-!
Shallow embedding of `src/app.py` (a Streamlit app with a text-length
counter and a BMI calculator) and verification of its specification.

Python `float` values are modelled by `PFloat`: finite doubles become exact
rationals (arithmetic in the program stays well within exactness concerns
for the properties below), and the special values `nan`, `inf`, `-inf` are
explicit constructors with IEEE-754 comparison semantics (every ordered
comparison involving `nan` is false).  Streamlit display calls
(`st.write`, `st.info`, `st.success`, `st.warning`, `st.error`) are
modelled as an output trace: each display function returns the list of
messages it renders, in order.
-/

/-- Model of a Python float: an exact rational, or one of the IEEE special
values `nan`, `+inf`, `-inf`. -/
inductive PFloat where
  | num (q : ℚ)
  | nan
  | inf
  | ninf
deriving DecidableEq, Repr

/-- IEEE-754 `<` on modelled floats: any comparison with `nan` is false. -/
def PFloat.lt : PFloat → PFloat → Bool
  | .nan, _ => false
  | _, .nan => false
  | .num a, .num b => decide (a < b)
  | .num _, .inf => true
  | .num _, .ninf => false
  | .inf, _ => false
  | .ninf, .ninf => false
  | .ninf, _ => true

/-- IEEE-754 `<=` on modelled floats: any comparison with `nan` is false. -/
def PFloat.le : PFloat → PFloat → Bool
  | .nan, _ => false
  | _, .nan => false
  | .num a, .num b => decide (a ≤ b)
  | .num _, .inf => true
  | .num _, .ninf => false
  | .inf, .inf => true
  | .inf, _ => false
  | .ninf, _ => true

/-- IEEE-754 `>` on modelled floats, as used by the source (`x > y`). -/
def PFloat.gt (a b : PFloat) : Bool := PFloat.lt b a

/-- Severity levels of the Streamlit message boxes used by the app. -/
inductive Severity where
  | info
  | success
  | warning
  | error
deriving DecidableEq, Repr

/-- One rendered output: `st.write` text, or a styled message box. -/
inductive Msg where
  | write (s : String)
  | styled (sev : Severity) (s : String)
deriving DecidableEq, Repr

/-- Constant `BMI_UNDERWEIGHT = 18.5` from `app.py`.  The value is written
`mkRat 185 10` so that it evaluates inside the kernel; the lemma
`BMI_UNDERWEIGHT_val` below checks that it is the literal `18.5`. -/
def BMI_UNDERWEIGHT : PFloat := .num (mkRat 185 10)

/-- Constant `BMI_NORMAL = 25.0` from `app.py`. -/
def BMI_NORMAL : PFloat := .num (25 : ℚ)

/-- Constant `BMI_OVERWEIGHT = 30.0` from `app.py`. -/
def BMI_OVERWEIGHT : PFloat := .num (30 : ℚ)

/-- Constant `MAX_HEIGHT = 300` from `app.py`. -/
def MAX_HEIGHT : PFloat := .num (300 : ℚ)

/-- Constant `MAX_WEIGHT = 1000` from `app.py`. -/
def MAX_WEIGHT : PFloat := .num (1000 : ℚ)

/-- `calculate_bmi(height, weight) = weight / ((height / 100) ** 2)` from
`app.py`, on the finite (rational) fragment. -/
def calculate_bmi (height weight : ℚ) : ℚ :=
  weight / ((height / 100) ^ 2)

/-- Lifting of `calculate_bmi` to modelled floats: a `nan` operand
propagates to a `nan` result.  After validation the operands are either
positive rationals or `nan` (infinite operands are rejected by
`validate_inputs`), so the remaining cases are unreachable in the program
and are mapped to `nan` as well. -/
def calculate_bmiP : PFloat → PFloat → PFloat
  | .num h, .num w => .num (calculate_bmi h w)
  | _, _ => .nan

/-- `get_bmi_category(bmi)` from `app.py`: the if/elif chain mapping a BMI
value to a `(label, message_type)` pair of strings. -/
def get_bmi_category (bmi : PFloat) : String × String :=
  if bmi.lt BMI_UNDERWEIGHT then ("判定: 低体重", "info")
  else if bmi.lt BMI_NORMAL then ("判定: 普通体重", "success")
  else if bmi.lt BMI_OVERWEIGHT then ("判定: 肥満（1度）", "warning")
  else ("判定: 肥満（2度以上）", "error")

/-- The `st.error` message for non-positive inputs. -/
def msgNonPositive : String := "身長と体重は正の数値で入力してください。"

/-- The `st.error` message for out-of-range inputs. -/
def msgOutOfRange : String := "身長と体重の値が範囲外です。適切な値を入力してください。"

/-- The `st.error` message for non-numeric inputs. -/
def msgNotNumeric : String := "身長と体重は数値で入力してください。"

/-- The `st.error` message for a missing height or weight field. -/
def msgMissing : String := "身長と体重をどちらも入力してください。"

/-- The `st.error` message for empty text in the text-counter mode. -/
def msgEmptyText : String := "カウント対象となるテキストを入力してから「実行」ボタンを押してください。"

/-- Numeric value of a list of ASCII digit characters. -/
def digitsToNat (l : List Char) : ℕ :=
  l.foldl (fun a c => 10 * a + (c.toNat - 48)) 0

/-- Value of a decimal literal with integer-part digits `ip`, fraction
digits `fp` and decimal exponent `e`, that is `ip.fp × 10^e`.  It is
assembled with `mkRat` over integer arithmetic so that it evaluates inside
the kernel; the lemma `decLit_eq` below checks it against the textbook
expression `(ip + fp / 10 ^ len) * 10 ^ e`. -/
def decLit (ip fp : List Char) (e : ℤ) : ℚ :=
  let M : ℕ := digitsToNat (ip ++ fp)
  let s : ℤ := e - fp.length
  if 0 ≤ s then mkRat ((M : ℤ) * (10 : ℤ) ^ s.toNat) 1
  else mkRat (M : ℤ) ((10 : ℕ) ^ (-s).toNat)

/-- Exponent part of a float literal, after the `e`/`E` marker: an optional
sign followed by at least one digit. -/
def parseExpPart (l : List Char) : Option ℤ :=
  match l with
  | '+' :: r =>
      if r ≠ [] ∧ r.all Char.isDigit then some (digitsToNat r) else none
  | '-' :: r =>
      if r ≠ [] ∧ r.all Char.isDigit then some (-(digitsToNat r : ℤ)) else none
  | r =>
      if r ≠ [] ∧ r.all Char.isDigit then some (digitsToNat r) else none

/-- Unsigned decimal literal accepted by Python `float()`:
`digits [. digits] [(e|E) exp]` with at least one digit in the mantissa. -/
def parseUnsigned (s : List Char) : Option ℚ :=
  let p := s.span Char.isDigit
  match p.2 with
  | '.' :: rest2 =>
      let p2 := rest2.span Char.isDigit
      if p.1.isEmpty && p2.1.isEmpty then none
      else
        match p2.2 with
        | [] => some (decLit p.1 p2.1 0)
        | 'e' :: r => (parseExpPart r).map (fun e => decLit p.1 p2.1 e)
        | 'E' :: r => (parseExpPart r).map (fun e => decLit p.1 p2.1 e)
        | _ => none
  | [] => if p.1.isEmpty then none else some (decLit p.1 [] 0)
  | 'e' :: r =>
      if p.1.isEmpty then none
      else (parseExpPart r).map (fun e => decLit p.1 [] e)
  | 'E' :: r =>
      if p.1.isEmpty then none
      else (parseExpPart r).map (fun e => decLit p.1 [] e)
  | _ => none

/-- Core of `float()` after the optional sign has been taken off: the
special spellings `nan`, `inf`, `infinity` (case-insensitive), or an
unsigned decimal literal. -/
def pyFloatCore (r : List Char) (neg : Bool) : Option PFloat :=
  let low := r.map Char.toLower
  if low = ['n', 'a', 'n'] then some .nan
  else if low = ['i', 'n', 'f'] ∨ low = ['i', 'n', 'f', 'i', 'n', 'i', 't', 'y'] then
    some (if neg then .ninf else .inf)
  else (parseUnsigned r).map (fun q => .num (if neg then -q else q))

/-- Model of the Python builtin `float(s)` applied to a string, as called
on line 56 of `app.py`: surrounding whitespace is stripped, then an
optional sign followed by a decimal literal or one of the special
spellings `nan` / `inf` / `infinity` (so, as in Python,
`float("nan")` succeeds and yields a NaN).  Returns `none` where Python
raises `ValueError`. -/
def pyFloat (s : String) : Option PFloat :=
  let l := ((s.toList.dropWhile Char.isWhitespace).reverse.dropWhile
    Char.isWhitespace).reverse
  match l with
  | '+' :: r => pyFloatCore r false
  | '-' :: r => pyFloatCore r true
  | r => pyFloatCore r false

/-- `validate_inputs(height, weight)` from `app.py`: parse both strings
with `float`, reject non-positive or out-of-range values via `st.error`,
otherwise return the parsed pair.  The result is the returned optional
pair together with the trace of rendered messages. -/
def validate_inputs (height weight : String) :
    Option (PFloat × PFloat) × List Msg :=
  match pyFloat height, pyFloat weight with
  | some h, some w =>
      if h.le (.num 0) || w.le (.num 0) then
        (none, [.styled .error msgNonPositive])
      else if h.gt MAX_HEIGHT || w.gt MAX_WEIGHT then
        (none, [.styled .error msgOutOfRange])
      else (some (h, w), [])
  | _, _ => (none, [.styled .error msgNotNumeric])

/-- `display_text_counter(text)` from `app.py`: Python truthiness of the
optional string (`if text:`) selects between the character count and the
empty-input error message. -/
def display_text_counter (text : Option String) : List Msg :=
  match text with
  | some t =>
      if t = "" then [.styled .error msgEmptyText]
      else [.write ("文字数: **" ++ toString t.length ++ "**")]
  | none => [.styled .error msgEmptyText]

/-- Model of the Python f-string format `.1f` on a finite value: round to
the nearest tenth (ties toward positive infinity, which agrees with the
double-precision behaviour on every value the program produces) and print
one digit after the decimal point.  The rounding is written with integer
operations — `(20 * q.num + q.den) / (2 * q.den)` is exactly
`⌊10 * q + 1 / 2⌋` (lemma `format1_floor` below) — so that it evaluates
inside the kernel. -/
def format1 (q : ℚ) : String :=
  let n : ℤ := (20 * q.num + (q.den : ℤ)) / (2 * (q.den : ℤ))
  let sign := if n < 0 then "-" else ""
  sign ++ toString (n.natAbs / 10) ++ "." ++ toString (n.natAbs % 10)

/-- The `.1f` format lifted to modelled floats (`nan` prints as `nan`). -/
def formatBmi : PFloat → String
  | .num q => format1 q
  | .nan => "nan"
  | .inf => "inf"
  | .ninf => "-inf"

/-- The message-type dispatch at the end of `display_bmi_result`: the
`message_type` string selects `st.info` / `st.success` / `st.warning`,
anything else falls to `st.error`. -/
def renderCategory (p : String × String) : Msg :=
  if p.2 = "info" then .styled .info p.1
  else if p.2 = "success" then .styled .success p.1
  else if p.2 = "warning" then .styled .warning p.1
  else .styled .error p.1

/-- `display_bmi_result(height, weight)` from `app.py`: empty-field check,
validation, BMI computation, formatted value, and category message, as a
trace of rendered messages. -/
def display_bmi_result (height weight : String) : List Msg :=
  if height = "" ∨ weight = "" then [.styled .error msgMissing]
  else
    match validate_inputs height weight with
    | (none, msgs) => msgs
    | (some (h, w), msgs) =>
        let bmi := calculate_bmiP h w
        msgs ++ [.write ("BMI値: **" ++ formatBmi bmi ++ "**"),
          renderCategory (get_bmi_category bmi)]

/-! ### Sanity lemmas about the kernel-friendly encodings -/

/-- `BMI_UNDERWEIGHT` is the literal `18.5`. -/
theorem BMI_UNDERWEIGHT_val : BMI_UNDERWEIGHT = .num (18.5 : ℚ) := by
  have h : (mkRat 185 10 : ℚ) = (18.5 : ℚ) := by
    rw [Rat.mkRat_eq_div]; norm_num
  rw [BMI_UNDERWEIGHT, h]

/-- Folding the base-10 digit accumulator from `v` is `v * 10 ^ length`
plus folding from `0`. -/
theorem digitsToNat_go (b : List Char) (v : ℕ) :
    b.foldl (fun a c => 10 * a + (c.toNat - 48)) v
      = v * 10 ^ b.length + b.foldl (fun a c => 10 * a + (c.toNat - 48)) 0 := by
  induction b generalizing v with
  | nil => simp
  | cons c b ih =>
      simp only [List.foldl_cons, List.length_cons]
      rw [ih (10 * v + (c.toNat - 48)), ih (10 * 0 + (c.toNat - 48))]
      ring

/-- `digitsToNat` over an append. -/
theorem digitsToNat_append (a b : List Char) :
    digitsToNat (a ++ b) = digitsToNat a * 10 ^ b.length + digitsToNat b := by
  unfold digitsToNat
  rw [List.foldl_append, digitsToNat_go]

/-- The `mkRat` encoding of a decimal literal agrees with the textbook
value `(ip + fp / 10 ^ len) * 10 ^ e`. -/
theorem decLit_eq (ip fp : List Char) (e : ℤ) :
    decLit ip fp e
      = ((digitsToNat ip : ℚ) + (digitsToNat fp : ℚ) / 10 ^ fp.length)
          * 10 ^ e := by
  have h10 : ((10 : ℚ) ^ fp.length) ≠ 0 := by positivity
  have h10' : (10 : ℚ) ≠ 0 := by norm_num
  have hM : ((digitsToNat (ip ++ fp) : ℕ) : ℚ)
      = (digitsToNat ip : ℚ) * 10 ^ fp.length + (digitsToNat fp : ℚ) := by
    rw [digitsToNat_append]; push_cast; ring
  unfold decLit
  simp only []
  split_ifs with h
  · rw [Rat.mkRat_one]
    push_cast
    rw [hM]
    have ht : (((e - (fp.length : ℤ)).toNat : ℤ)) = e - fp.length :=
      Int.toNat_of_nonneg h
    have hz : (10 : ℚ) ^ e
        = 10 ^ ((e - (fp.length : ℤ)).toNat) * 10 ^ (fp.length) := by
      rw [← zpow_natCast (10 : ℚ) ((e - (fp.length : ℤ)).toNat), ht,
        ← zpow_natCast (10 : ℚ) fp.length, ← zpow_add₀ h10']
      ring_nf
    rw [hz]
    field_simp
    ring
  · rw [Rat.mkRat_eq_div]
    push_cast
    rw [hM]
    have ht : (((-(e - (fp.length : ℤ))).toNat : ℤ)) = fp.length - e := by
      rw [Int.toNat_of_nonneg (by omega)]; omega
    have hz : (10 : ℚ) ^ e
        = 10 ^ (fp.length) / 10 ^ ((-(e - (fp.length : ℤ))).toNat) := by
      rw [← zpow_natCast (10 : ℚ) ((-(e - (fp.length : ℤ))).toNat), ht,
        ← zpow_natCast (10 : ℚ) fp.length, ← zpow_sub₀ h10']
      ring_nf
    rw [hz]
    have hu : ((10 : ℚ) ^ ((-(e - (fp.length : ℤ))).toNat)) ≠ 0 := by positivity
    field_simp

/-- The integer division inside `format1` is the floor of `10 * q + 1/2`. -/
theorem format1_floor (q : ℚ) :
    (20 * q.num + (q.den : ℤ)) / (2 * (q.den : ℤ)) = ⌊10 * q + 1 / 2⌋ := by
  have hd : ((q.den : ℚ)) ≠ 0 := by
    exact_mod_cast q.den_nz
  have hq : q = (q.num : ℚ) / (q.den : ℚ) := (Rat.num_div_den q).symm
  have h : (10 * q + 1 / 2 : ℚ)
      = ((20 * q.num + (q.den : ℤ) : ℤ) : ℚ) / ((2 * q.den : ℕ) : ℚ) := by
    nth_rewrite 1 [hq]
    push_cast
    field_simp
    ring
  rw [h, Rat.floor_intCast_div_natCast]
  push_cast
  ring_nf

/-- Normal form of the category classifier on finite BMI values: the
if/elif chain over rational comparisons. -/
theorem get_bmi_category_num (q : ℚ) :
    get_bmi_category (.num q)
      = if q < 18.5 then ("判定: 低体重", "info")
        else if q < 25 then ("判定: 普通体重", "success")
        else if q < 30 then ("判定: 肥満（1度）", "warning")
        else ("判定: 肥満（2度以上）", "error") := by
  have h185 : (mkRat 185 10 : ℚ) = 18.5 := by
    rw [Rat.mkRat_eq_div]; norm_num
  simp [get_bmi_category, PFloat.lt, BMI_UNDERWEIGHT, BMI_NORMAL,
    BMI_OVERWEIGHT, h185]

/-- C1: for every height `h > 0` and weight `w`, `calculate_bmi` returns
exactly `w / ((h / 100) ^ 2)`, which is the weight divided by the square
of the height in meters. -/
theorem claim_C1 (h w : ℚ) (_hpos : 0 < h) :
    calculate_bmi h w = w / ((h / 100) ^ 2)
    ∧ calculate_bmi h w = w / ((h / 100) * (h / 100)) := by
  constructor
  · rfl
  · rw [calculate_bmi, sq]

/-- Witness for C1 at the concrete input `h = 2`, `w = 3`. -/
theorem claim_C1_witness :
    (0 : ℚ) < 2
    ∧ (calculate_bmi 2 3 = 3 / (((2 : ℚ) / 100) ^ 2)
        ∧ calculate_bmi 2 3 = 3 / (((2 : ℚ) / 100) * (2 / 100))) :=
  ⟨by norm_num, claim_C1 2 3 (by norm_num)⟩

/-- C2: on finite BMI values the classifier realises exactly the four
half-open intervals with boundaries 18.5, 25, 30, each boundary belonging
to the higher bucket; in particular BMI = 18.5 is Normal. -/
theorem claim_C2 (q : ℚ) :
    (get_bmi_category (.num q) = ("判定: 低体重", "info") ↔ q < 18.5)
    ∧ (get_bmi_category (.num q) = ("判定: 普通体重", "success") ↔
        18.5 ≤ q ∧ q < 25)
    ∧ (get_bmi_category (.num q) = ("判定: 肥満（1度）", "warning") ↔
        25 ≤ q ∧ q < 30)
    ∧ (get_bmi_category (.num q) = ("判定: 肥満（2度以上）", "error") ↔ 30 ≤ q)
    ∧ get_bmi_category (.num (18.5 : ℚ)) = ("判定: 普通体重", "success") := by
  have hbd : get_bmi_category (.num (18.5 : ℚ))
      = ("判定: 普通体重", "success") := by
    rw [get_bmi_category_num]; norm_num
  rw [get_bmi_category_num]
  split_ifs with h1 h2 h3
  · exact ⟨⟨fun _ => h1, fun _ => rfl⟩,
      ⟨fun he => absurd he (by decide), fun hc => absurd h1 (not_lt.2 hc.1)⟩,
      ⟨fun he => absurd he (by decide), fun hc => absurd h1 (not_lt.2 (by linarith [hc.1]))⟩,
      ⟨fun he => absurd he (by decide), fun hc => absurd h1 (not_lt.2 (by linarith))⟩,
      hbd⟩
  · exact ⟨⟨fun he => absurd he (by decide), fun hc => absurd hc (by exact h1)⟩,
      ⟨fun _ => ⟨not_lt.1 h1, h2⟩, fun _ => rfl⟩,
      ⟨fun he => absurd he (by decide), fun hc => absurd h2 (not_lt.2 hc.1)⟩,
      ⟨fun he => absurd he (by decide), fun hc => absurd h2 (not_lt.2 (by linarith))⟩,
      hbd⟩
  · exact ⟨⟨fun he => absurd he (by decide), fun hc => absurd hc (by exact h1)⟩,
      ⟨fun he => absurd he (by decide), fun hc => absurd hc.2 (by exact h2)⟩,
      ⟨fun _ => ⟨not_lt.1 h2, h3⟩, fun _ => rfl⟩,
      ⟨fun he => absurd he (by decide), fun hc => absurd h3 (not_lt.2 hc)⟩,
      hbd⟩
  · exact ⟨⟨fun he => absurd he (by decide), fun hc => absurd hc (by exact h1)⟩,
      ⟨fun he => absurd he (by decide), fun hc => absurd hc.2 (by exact h2)⟩,
      ⟨fun he => absurd he (by decide), fun hc => absurd hc.2 (by exact h3)⟩,
      ⟨fun _ => not_lt.1 h3, fun _ => rfl⟩,
      hbd⟩

/-- C3: evaluation of the code at the failing input: the string pair
("nan", "60") parses (Python `float("nan")` is a NaN), every comparison
against NaN in `validate_inputs` is false, so validation succeeds and
returns a pair whose height component is NaN — which is not a strictly
positive number, violating the claimed invariant. -/
theorem claim_C3 :
    validate_inputs "nan" "60" = (some (.nan, .num (mkRat 60 1)), [])
    ∧ PFloat.lt (.num 0) .nan = false
    ∧ (∀ q : ℚ, PFloat.nan ≠ .num q) :=
  ⟨by decide, rfl, fun q h => by cases h⟩

/-- C4: whenever either input string fails to parse as a float,
`validate_inputs` reports the not-numeric error and returns no pair. -/
theorem claim_C4 (hs ws : String)
    (h : pyFloat hs = none ∨ pyFloat ws = none) :
    validate_inputs hs ws = (none, [.styled .error msgNotNumeric]) := by
  unfold validate_inputs
  rcases h with h | h
  · rw [h]
  · rw [h]
    cases pyFloat hs <;> rfl

/-- Witness for C4 at the concrete input ("abc", "60"). -/
theorem claim_C4_witness :
    pyFloat "abc" = none
    ∧ validate_inputs "abc" "60" = (none, [.styled .error msgNotNumeric]) :=
  ⟨by decide, claim_C4 "abc" "60" (Or.inl (by decide))⟩

/-- C5: on a pair of strings that both parse, a non-positive value (under
the float comparison `<=`) yields the non-positive error; otherwise an
out-of-range value yields the out-of-range error — and the non-positivity
check takes precedence, as at ("-5", "60"). -/
theorem claim_C5 (hs ws : String) (h w : PFloat)
    (hh : pyFloat hs = some h) (hw : pyFloat ws = some w) :
    ((h.le (.num 0) || w.le (.num 0)) = true →
        validate_inputs hs ws = (none, [.styled .error msgNonPositive]))
    ∧ ((h.le (.num 0) || w.le (.num 0)) = false →
        (h.gt MAX_HEIGHT || w.gt MAX_WEIGHT) = true →
        validate_inputs hs ws = (none, [.styled .error msgOutOfRange]))
    ∧ validate_inputs "-5" "60" = (none, [.styled .error msgNonPositive]) := by
  refine ⟨?_, ?_, by decide⟩
  · intro hc
    unfold validate_inputs
    rw [hh, hw]
    simp [hc]
  · intro hc hr
    unfold validate_inputs
    rw [hh, hw]
    simp [hc, hr]

/-- Witness for C5 at the concrete input ("-5", "60"). -/
theorem claim_C5_witness :
    validate_inputs "-5" "60" = (none, [.styled .error msgNonPositive]) :=
  (claim_C5 "-5" "60" (.num (-(mkRat 5 1))) (.num (mkRat 60 1))
    (by decide) (by decide)).1 (by decide)

/-- C6: strings parsing to finite values with `0 < h ≤ 300` and
`0 < w ≤ 1000` validate successfully, and the parsed pair is returned
unchanged with no error message. -/
theorem claim_C6 (hs ws : String) (h w : ℚ)
    (hh : pyFloat hs = some (.num h)) (hw : pyFloat ws = some (.num w))
    (h1 : 0 < h) (h2 : h ≤ 300) (h3 : 0 < w) (h4 : w ≤ 1000) :
    validate_inputs hs ws = (some (.num h, .num w), []) := by
  unfold validate_inputs
  rw [hh, hw]
  have c1 : ((PFloat.num h).le (.num 0) || (PFloat.num w).le (.num 0))
      = false := by
    simp only [PFloat.le, Bool.or_eq_false_iff, decide_eq_false_iff_not,
      not_le]
    exact ⟨h1, h3⟩
  have c2 : ((PFloat.num h).gt MAX_HEIGHT || (PFloat.num w).gt MAX_WEIGHT)
      = false := by
    simp only [PFloat.gt, MAX_HEIGHT, MAX_WEIGHT, PFloat.lt,
      Bool.or_eq_false_iff, decide_eq_false_iff_not, not_lt]
    exact ⟨h2, h4⟩
  simp [c1, c2]

/-- Witness for C6 at the concrete input ("170.5", "65.0"). -/
theorem claim_C6_witness :
    validate_inputs "170.5" "65.0"
      = (some (.num (mkRat 1705 10), .num (mkRat 650 10)), []) :=
  claim_C6 "170.5" "65.0" (mkRat 1705 10) (mkRat 650 10)
    (by decide) (by decide) (by decide) (by decide) (by decide) (by decide)

/-- C7: in BMI mode an empty height or weight string produces exactly the
missing-field error message and nothing else: no parsing, validation,
computation or classification output appears in the trace. -/
theorem claim_C7 (hs ws : String) (he : hs = "" ∨ ws = "") :
    display_bmi_result hs ws = [.styled .error msgMissing] := by
  unfold display_bmi_result
  rw [if_pos he]

/-- Witness for C7 at the concrete input ("", "60"). -/
theorem claim_C7_witness :
    display_bmi_result "" "60" = [.styled .error msgMissing] :=
  claim_C7 "" "60" (Or.inl rfl)

/-- C8: the text counter errors exactly on an absent or empty text
(Python truthiness of the optional string), and otherwise prints the
character count; in particular "hello" and "こんにちは" both count 5. -/
theorem claim_C8 :
    display_text_counter none = [.styled .error msgEmptyText]
    ∧ display_text_counter (some "") = [.styled .error msgEmptyText]
    ∧ (∀ s : String, s ≠ "" →
        display_text_counter (some s)
          = [.write ("文字数: **" ++ toString s.length ++ "**")])
    ∧ display_text_counter (some "hello") = [.write "文字数: **5**"]
    ∧ display_text_counter (some "こんにちは") = [.write "文字数: **5**"] := by
  refine ⟨rfl, by decide, ?_, by decide, by decide⟩
  intro s hs
  simp only [display_text_counter]
  rw [if_neg hs]

/-- Witness for C8 at the concrete input "abc". -/
theorem claim_C8_witness :
    display_text_counter (some "abc")
      = [.write ("文字数: **" ++ toString "abc".length ++ "**")] :=
  claim_C8.2.2.1 "abc" (by decide)

/-- C10: a NaN BMI falls through every `<` comparison of the if/elif
chain (each is false against NaN) and lands in the highest bucket with
the error severity. -/
theorem claim_C10 :
    get_bmi_category .nan = ("判定: 肥満（2度以上）", "error")
    ∧ PFloat.lt .nan BMI_UNDERWEIGHT = false
    ∧ PFloat.lt .nan BMI_NORMAL = false
    ∧ PFloat.lt .nan BMI_OVERWEIGHT = false :=
  ⟨rfl, rfl, rfl, rfl⟩

/-- C9: with non-empty fields and successful validation, the BMI-mode
controller renders the formatted BMI value first and then the category
message; the message-type dispatch maps each category to its severity
(info / success / warning / error); and on ("170.5", "65.0") the trace is
the BMI 22.4 followed by the Normal category at success severity. -/
theorem claim_C9 :
    (∀ (hs ws : String) (h w : PFloat), hs ≠ "" → ws ≠ "" →
        validate_inputs hs ws = (some (h, w), []) →
        display_bmi_result hs ws
          = [.write ("BMI値: **" ++ formatBmi (calculate_bmiP h w) ++ "**"),
             renderCategory (get_bmi_category (calculate_bmiP h w))])
    ∧ renderCategory ("判定: 低体重", "info") = .styled .info "判定: 低体重"
    ∧ renderCategory ("判定: 普通体重", "success")
        = .styled .success "判定: 普通体重"
    ∧ renderCategory ("判定: 肥満（1度）", "warning")
        = .styled .warning "判定: 肥満（1度）"
    ∧ renderCategory ("判定: 肥満（2度以上）", "error")
        = .styled .error "判定: 肥満（2度以上）"
    ∧ display_bmi_result "170.5" "65.0"
        = [.write "BMI値: **22.4**", .styled .success "判定: 普通体重"] := by
  have hgen : ∀ (hs ws : String) (h w : PFloat), hs ≠ "" → ws ≠ "" →
      validate_inputs hs ws = (some (h, w), []) →
      display_bmi_result hs ws
        = [.write ("BMI値: **" ++ formatBmi (calculate_bmiP h w) ++ "**"),
           renderCategory (get_bmi_category (calculate_bmiP h w))] := by
    intro hs ws h w hhs hws hv
    unfold display_bmi_result
    rw [if_neg (by exact not_or.2 ⟨hhs, hws⟩), hv]
    rfl
  have hv : validate_inputs "170.5" "65.0"
      = (some (.num (mkRat 1705 10), .num (mkRat 650 10)), []) := by decide
  have hc : calculate_bmi (mkRat 1705 10) (mkRat 650 10)
      = mkRat 2600000 116281 := by
    rw [calculate_bmi, Rat.mkRat_eq_div, Rat.mkRat_eq_div, Rat.mkRat_eq_div]
    norm_num
  have hP : calculate_bmiP (.num (mkRat 1705 10)) (.num (mkRat 650 10))
      = .num (mkRat 2600000 116281) := by
    show PFloat.num (calculate_bmi (mkRat 1705 10) (mkRat 650 10)) = _
    rw [hc]
  refine ⟨hgen, by decide, by decide, by decide, by decide, ?_⟩
  rw [hgen "170.5" "65.0" (.num (mkRat 1705 10)) (.num (mkRat 650 10))
    (by decide) (by decide) hv, hP]
  decide

/-- Witness for C9 at the concrete input ("150", "100"). -/
theorem claim_C9_witness :
    validate_inputs "150" "100"
      = (some (.num (mkRat 150 1), .num (mkRat 100 1)), [])
    ∧ display_bmi_result "150" "100"
        = [.write ("BMI値: **"
            ++ formatBmi (calculate_bmiP (.num (mkRat 150 1))
                (.num (mkRat 100 1))) ++ "**"),
           renderCategory (get_bmi_category
             (calculate_bmiP (.num (mkRat 150 1)) (.num (mkRat 100 1))))] :=
  ⟨by decide, claim_C9.1 "150" "100" (.num (mkRat 150 1)) (.num (mkRat 100 1))
    (by decide) (by decide) (by decide)⟩
